import Mathlib

/-!
Shallow embedding of the policy-resolution engine of the
cloudflare-token-generator repository.

The embedded code is the pure core: the static service catalog
(`Services`), level filtering (`filterPermissions`, `ServiceLevels`),
resource-scope resolution (`buildResources`), the multi-service resolver
(`GenerateMulti`, returning the token-creation request it would submit),
the god-mode assembler (`GodMode`, taking the remotely fetched
permission-group list as an argument), and the legacy single-service
path (`GenerateLegacy`).  Remote calls (token creation, permission-group
fetch) are outside the embedding: each embedded operation returns the
request value the code would hand to the remote collaborator, or the
local validation error it raises first.

String helpers model the Go standard library on the ASCII inputs this
program manipulates: `lowerStr` models `strings.ToLower`, `trimStr`
models `strings.TrimSpace`, and `strContains` models `strings.Contains`.
-/

/-- Models `strings.ToLower` (ASCII case mapping). -/
def lowerStr (s : String) : String := ⟨s.data.map Char.toLower⟩

/-- Whitespace recognised by `strings.TrimSpace` (ASCII part). -/
def isSpaceChar (c : Char) : Bool :=
  c = ' ' || c = '\t' || c = '\n' || c = '\x0b' || c = '\x0c' || c = '\r'

/-- Models `strings.TrimSpace`. -/
def trimStr (s : String) : String :=
  ⟨((s.data.dropWhile isSpaceChar).reverse.dropWhile isSpaceChar).reverse⟩

/-- `subOccurs pat l` holds when `pat` occurs contiguously inside `l`. -/
def subOccurs (pat : List Char) : List Char → Bool
  | [] => decide (pat = [])
  | c :: rest => pat.isPrefixOf (c :: rest) || subOccurs pat rest

/-- Models `strings.Contains s sub`. -/
def strContains (s sub : String) : Bool := subOccurs sub.data s.data

/-- `ResourceScope` from the source: whether a service is scoped to a
zone or to an account. -/
inductive ResourceScope where
  | zone
  | account
deriving DecidableEq

/-- `Permission` from the source: a Cloudflare permission group name and
its platform-assigned identifier. -/
structure Permission where
  id : String
  name : String
deriving DecidableEq

/-- `Service` from the source: a catalog entry. -/
structure Service where
  name : String
  description : String
  resourceScope : ResourceScope
  permissions : List Permission
deriving DecidableEq

/-- The static service catalog `Services`, embedded as an association
list from lookup key to definition (the Go map is only ever used for
key lookup). -/
def Services : List (String × Service) := [
  ("dns",
   { name := "dns", description := "DNS records management",
      resourceScope := .zone,
      permissions := [
        { id := "82e64a83756745bbbb1c9c2701bf816b", name := "DNS Read" },
        { id := "4755a26eedb94da69e1066d98aa820be", name := "DNS Write" }] }),
  ("zone",
   { name := "zone", description := "Zone settings management",
      resourceScope := .zone,
      permissions := [
        { id := "c8fed203ed3043cba015a93ad1616f1f", name := "Zone Read" },
        { id := "3030687196b94b638145a3953da2b699", name := "Zone Settings Write" }] }),
  ("cache",
   { name := "cache", description := "Cache purge",
      resourceScope := .zone,
      permissions := [
        { id := "e17beae8b8cb423a99b1730f21238bed", name := "Cache Purge" }] }),
  ("firewall",
   { name := "firewall", description := "Firewall services",
      resourceScope := .zone,
      permissions := [
        { id := "4ec32dfcb35641c5bb32d5ef1ab963b4", name := "Firewall Services Read" },
        { id := "43137f8d07884d3198dc0ee77ca6e79b", name := "Firewall Services Write" }] }),
  ("ssl",
   { name := "ssl", description := "SSL and certificates management",
      resourceScope := .zone,
      permissions := [
        { id := "7b7216b327b04b8fbc8f524e1f9b7531", name := "SSL and Certificates Read" },
        { id := "c03055bc037c4ea9afb9a9f104b7b721", name := "SSL and Certificates Write" }] }),
  ("waf",
   { name := "waf", description := "Zone WAF management",
      resourceScope := .zone,
      permissions := [
        { id := "dbc512b354774852af2b5a5f4ba3d470", name := "Zone WAF Read" },
        { id := "fb6778dc191143babbfaa57993f1d275", name := "Zone WAF Write" }] }),
  ("loadbalancer",
   { name := "loadbalancer", description := "Load balancer management",
      resourceScope := .zone,
      permissions := [
        { id := "e9a975f628014f1d85b723993116f7d5", name := "Load Balancers Read" },
        { id := "6d7f2f5f5b1d4a0e9081fdc98d432fd1", name := "Load Balancers Write" }] }),
  ("pagerules",
   { name := "pagerules", description := "Page rules management",
      resourceScope := .zone,
      permissions := [
        { id := "b415b70a4fd1412886f164451f20405c", name := "Page Rules Read" },
        { id := "ed07f6c337da4195b4e72a1fb2c6bcae", name := "Page Rules Write" }] }),
  ("workers",
   { name := "workers", description := "Workers scripts management",
      resourceScope := .account,
      permissions := [
        { id := "1a71c399035b4950a1bd1466bbe4f420", name := "Workers Scripts Read" },
        { id := "e086da7e2179491d91ee5f35b3ca210a", name := "Workers Scripts Write" }] }),
  ("kv",
   { name := "kv", description := "Workers KV storage",
      resourceScope := .account,
      permissions := [
        { id := "8b47d2786a534c08a1f94ee8f9f599ef", name := "Workers KV Storage Read" },
        { id := "f7f0eda5697f475c90846e879bab8666", name := "Workers KV Storage Write" }] }),
  ("r2",
   { name := "r2", description := "Workers R2 object storage",
      resourceScope := .account,
      permissions := [
        { id := "b4992e1108244f5d8bfbd5744320c2e1", name := "Workers R2 Storage Read" },
        { id := "bf7481a1826f439697cb59a20b22293e", name := "Workers R2 Storage Write" }] }),
  ("pages",
   { name := "pages", description := "Cloudflare Pages",
      resourceScope := .account,
      permissions := [
        { id := "e247aedd66bd41cc9193af0213416666", name := "Pages Read" },
        { id := "8d28297797f24fb8a29572aaac2f254d", name := "Pages Write" }] }),
  ("d1",
   { name := "d1", description := "D1 database",
      resourceScope := .account,
      permissions := [
        { id := "192192df92ee43ac90f2aeeffce67e35", name := "D1 Read" },
        { id := "09b2857d1c31407795e75e3fed8617a1", name := "D1 Write" }] }),
  ("queues",
   { name := "queues", description := "Cloudflare Queues",
      resourceScope := .account,
      permissions := [
        { id := "84a7755d54c646ca87cd50682a34bf7c", name := "Queues Read" },
        { id := "366f57075ffc42689627bcf8242a1b6d", name := "Queues Write" }] }),
  ("ai",
   { name := "ai", description := "Workers AI inference",
      resourceScope := .account,
      permissions := [
        { id := "a92d2450e05d4e7bb7d0a64968f83d11", name := "Workers AI Read" },
        { id := "bacc64e0f6c34fc0883a1223f938a104", name := "Workers AI Write" }] }),
  ("stream",
   { name := "stream", description := "Cloudflare Stream video",
      resourceScope := .account,
      permissions := [
        { id := "de21485a24744b76a004aa153898f7fe", name := "Stream Read" },
        { id := "714f9c13a5684c2885a793f5edb36f59", name := "Stream Write" }] }),
  ("images",
   { name := "images", description := "Cloudflare Images",
      resourceScope := .account,
      permissions := [
        { id := "0cf6473ad41449e7b7b743d14fc20c60", name := "Images Read" },
        { id := "618ec6c64a3a42f8b08bdcb147ded4e4", name := "Images Write" }] }),
  ("tunnels",
   { name := "tunnels", description := "Cloudflare Tunnel management",
      resourceScope := .account,
      permissions := [
        { id := "efea2ab8357b47888938f101ae5e053f", name := "Cloudflare Tunnel Read" },
        { id := "c07321b023e944ff818fec44d8203567", name := "Cloudflare Tunnel Write" }] })]

/-- Key lookup in the `Services` map (`Services[k]` in Go). -/
def lookupService (k : String) : Option Service :=
  (Services.find? (fun e => e.1 = k)).map (·.2)

/-- The distinct local validation errors raised by the engine, one
constructor per `fmt.Errorf` site, carrying the same data the message
interpolates. -/
inductive GenError where
  /-- `invalid permission level %q, must be "read" or "edit"` -/
  | invalidLevel (level : String)
  /-- `unknown service %q, use ListServices() to see available services` -/
  | unknownService (key : String)
  /-- `service %q does not support %q level (available: %s)` -/
  | unsupportedLevel (service level : String) (available : List String)
  /-- `account_id required for account-scoped service %q with scope "all"` -/
  | missingAccountID (service : String)
  /-- `account_id required for godmode` -/
  | missingAccountIDGodmode
deriving DecidableEq

/-- `filterPermissions` from the source. -/
def filterPermissions (perms : List Permission) (level : String) : List Permission :=
  if level = "edit" then perms
  else perms.filter (fun p => strContains (lowerStr p.name) "read")

/-- `ServiceLevels` from the source: permission levels available for a
service. -/
def ServiceLevels (svc : Service) : List String :=
  if svc.permissions.any (fun p => strContains (lowerStr p.name) "read")
  then ["read", "edit"] else ["edit"]

/-- `buildResources` from the source (identical in both versions of the
package); `accountID` is the generator's configured account identifier.
The resources map always holds a single entry, embedded as a
one-element association list. -/
def buildResources (accountID : String) (svc : Service) (scope : String) :
    Except GenError (List (String × String)) :=
  if lowerStr scope = "all" then
    if svc.resourceScope = ResourceScope.zone then
      .ok [("com.cloudflare.api.account.zone.*", "*")]
    else if accountID = "" then
      .error (.missingAccountID svc.name)
    else
      .ok [("com.cloudflare.api.account." ++ accountID, "*")]
  else
    if svc.resourceScope = ResourceScope.zone then
      .ok [("com.cloudflare.api.account.zone." ++ scope, "*")]
    else
      .ok [("com.cloudflare.api.account." ++ scope, "*")]

/-- The lookup-and-validate loop of `GenerateMulti`: resolves each
requested key in order, failing fast on the first unknown key or
unsupported level. -/
def resolveServices (keys : List String) (level : String) :
    Except GenError (List Service) :=
  match keys with
  | [] => .ok []
  | s :: rest =>
    match lookupService (lowerStr (trimStr s)) with
    | none => .error (.unknownService s)
    | some svc =>
      if (filterPermissions svc.permissions level).length = 0 then
        .error (.unsupportedLevel svc.name level (ServiceLevels svc))
      else do
        let tail ← resolveServices rest level
        pure (svc :: tail)

/-- The zone partition of `GenerateMulti` (services appended in request
order when `svc.ResourceScope == ResourceScopeZone`). -/
def zoneGroup (svcs : List Service) : List Service :=
  svcs.filter (fun s => decide (s.resourceScope = ResourceScope.zone))

/-- The account partition of `GenerateMulti` (the `else` branch). -/
def accountGroup (svcs : List Service) : List Service :=
  svcs.filter (fun s => decide (¬ s.resourceScope = ResourceScope.zone))

/-- The permission-group identifiers a merged policy carries: for each
service of the group in order, its level-filtered permission ids in
catalog order. -/
def groupPermIDs (level : String) (svcs : List Service) : List String :=
  svcs.flatMap (fun svc => (filterPermissions svc.permissions level).map Permission.id)

/-- `cloudflare.APITokenPolicies` (permission groups kept as the id
list that the Go code wraps one by one). -/
structure APITokenPolicies where
  effect : String
  resources : List (String × String)
  permissionGroups : List String
deriving DecidableEq

/-- The token-creation request `createToken` submits: name and
policies. -/
structure APIToken where
  name : String
  policies : List APITokenPolicies
deriving DecidableEq

/-- One `if len(...) > 0` block of `GenerateMulti`: builds the single
merged policy of a (zone or account) group, with resources from the
group's first service. -/
def groupPolicies (accountID scope level : String) (svcs : List Service) :
    Except GenError (List APITokenPolicies) :=
  match svcs with
  | [] => .ok []
  | s0 :: _ => do
    let resources ← buildResources accountID s0 scope
    pure [{ effect := "allow", resources := resources,
            permissionGroups := groupPermIDs level svcs }]

/-- `strings.Join names "-"`. -/
def joinDash : List String → String
  | [] => ""
  | [x] => x
  | x :: xs => x ++ "-" ++ joinDash xs

/-- `GenerateMulti` from the source, up to the remote `createToken`
call: returns the request it would submit, or the local validation
error. -/
def GenerateMulti (accountID : String) (services : List String)
    (scope level0 : String) : Except GenError APIToken :=
  let level := lowerStr level0
  if level ≠ "read" ∧ level ≠ "edit" then
    .error (.invalidLevel level)
  else do
    let svcs ← resolveServices services level
    let zonePolicies ← groupPolicies accountID scope level (zoneGroup svcs)
    let accountPolicies ← groupPolicies accountID scope level (accountGroup svcs)
    let tokenName := joinDash (svcs.map Service.name) ++ "-" ++ scope ++ "-" ++ level
    pure { name := tokenName, policies := zonePolicies ++ accountPolicies }

/-- `Generate` from the current source: delegates to `GenerateMulti`
with a one-element service list at level "edit". -/
def Generate (accountID : String) (service scope : String) : Except GenError APIToken :=
  GenerateMulti accountID [service] scope "edit"

/-- The legacy standalone `Generate` of cftoken.go: direct lookup
(lowercased, not trimmed), one policy with the service's full
permission list. -/
def GenerateLegacy (accountID : String) (service scope : String) :
    Except GenError APIToken :=
  match lookupService (lowerStr service) with
  | none => .error (.unknownService service)
  | some svc => do
    let resources ← buildResources accountID svc scope
    pure { name := svc.name ++ "-" ++ scope,
           policies := [{ effect := "allow", resources := resources,
                          permissionGroups := svc.permissions.map Permission.id }] }

/-- `permissionGroup` from the source: a permission group as returned
by the Cloudflare API, with its free-text scope hints. -/
structure permissionGroup where
  id : String
  name : String
  scopes : List String
deriving DecidableEq

/-- `deriveScope` from the source: scan the scope hints in order, the
first hint containing "zone" gives "zone", else one containing
"account" gives "account", else scan on; no hint matches gives "". -/
def deriveScope : List String → String
  | [] => ""
  | s :: rest =>
    if strContains s "zone" then "zone"
    else if strContains s "account" then "account"
    else deriveScope rest

/-- The api-token exclusion of the `GodMode` loop: permission groups
whose name case-insensitively contains "api token" are skipped. -/
def godKept (perms : List permissionGroup) : List permissionGroup :=
  perms.filter (fun p => !(strContains (lowerStr p.name) "api token"))

/-- The zone bucket of the `GodMode` loop, in fetch order. -/
def godZonePerms (perms : List permissionGroup) : List String :=
  ((godKept perms).filter
    (fun p => decide (deriveScope p.scopes = "zone"))).map permissionGroup.id

/-- The account bucket of the `GodMode` loop, in fetch order. -/
def godAccountPerms (perms : List permissionGroup) : List String :=
  ((godKept perms).filter
    (fun p => decide (deriveScope p.scopes = "account"))).map permissionGroup.id

/-- `GodMode` from the source, with the remotely fetched
permission-group list passed in (the fetch is an external call) and up
to the remote `createToken` call. -/
def GodMode (accountID : String) (perms : List permissionGroup) :
    Except GenError APIToken :=
  if accountID = "" then .error .missingAccountIDGodmode
  else
    .ok { name := "godmode",
          policies :=
            (if (godZonePerms perms).length > 0 then
              [{ effect := "allow",
                 resources := [("com.cloudflare.api.account.zone.*", "*")],
                 permissionGroups := godZonePerms perms }] else []) ++
            (if (godAccountPerms perms).length > 0 then
              [{ effect := "allow",
                 resources := [("com.cloudflare.api.account." ++ accountID, "*")],
                 permissionGroups := godAccountPerms perms }] else []) }

deriving instance DecidableEq for Except

example : GenerateMulti "acct" ["cache"] "all" "read" =
    .error (.unsupportedLevel "cache" "read" ["edit"]) := rfl

example : GenerateMulti "acct" ["dns", "workers"] "all" "edit" =
    .ok { name := "dns-workers-all-edit",
          policies := [
            { effect := "allow",
              resources := [("com.cloudflare.api.account.zone.*", "*")],
              permissionGroups := ["82e64a83756745bbbb1c9c2701bf816b",
                                   "4755a26eedb94da69e1066d98aa820be"] },
            { effect := "allow",
              resources := [("com.cloudflare.api.account.acct", "*")],
              permissionGroups := ["1a71c399035b4950a1bd1466bbe4f420",
                                   "e086da7e2179491d91ee5f35b3ca210a"] }] } := by
  decide

/-! ## Helper lemmas -/

theorem except_bind_ok {ε α β : Type} (x : Except ε α) (f : α → Except ε β) (b : β) :
    (x >>= f) = .ok b ↔ ∃ a, x = .ok a ∧ f a = .ok b := by
  cases x <;> simp [Bind.bind, Except.bind]

theorem except_bind_error {ε α β : Type} (x : Except ε α) (f : α → Except ε β) (e : ε) :
    (x >>= f) = .error e ↔ x = .error e ∨ ∃ a, x = .ok a ∧ f a = .error e := by
  cases x <;> simp [Bind.bind, Except.bind]

theorem empty_append_str (s : String) : "" ++ s = s := by
  apply String.ext
  simp [String.data_append]

theorem buildResources_ok_len (aid : String) (svc : Service) (scope : String)
    (res : List (String × String)) (h : buildResources aid svc scope = .ok res) :
    res.length = 1 := by
  unfold buildResources at h
  split at h <;> split at h <;> first
    | (simp at h; subst h; rfl)
    | (split at h <;> simp at h <;> subst h <;> rfl)

theorem buildResources_error_shape (aid : String) (svc : Service) (scope : String)
    (e : GenError) (h : buildResources aid svc scope = .error e) :
    e = .missingAccountID svc.name := by
  unfold buildResources at h
  split at h <;> split at h <;> first
    | simp at h
    | (split at h <;> simp at h; exact h.symm)

theorem groupPolicies_ok_cases (aid scope level : String) (svcs : List Service)
    (ps : List APITokenPolicies) (h : groupPolicies aid scope level svcs = .ok ps) :
    (svcs = [] ∧ ps = []) ∨
    (∃ s0 rest res, svcs = s0 :: rest ∧ buildResources aid s0 scope = .ok res ∧
      ps = [{ effect := "allow", resources := res,
              permissionGroups := groupPermIDs level svcs }]) := by
  cases svcs with
  | nil =>
    left
    unfold groupPolicies at h
    simp at h
    exact ⟨rfl, h⟩
  | cons s0 rest =>
    right
    unfold groupPolicies at h
    rw [except_bind_ok] at h
    obtain ⟨res, hres, hps⟩ := h
    simp [pure, Except.pure] at hps
    exact ⟨s0, rest, res, rfl, hres, hps.symm⟩

theorem groupPolicies_error_shape (aid scope level : String) (svcs : List Service)
    (e : GenError) (h : groupPolicies aid scope level svcs = .error e) :
    ∃ s0 rest, svcs = s0 :: rest ∧ e = .missingAccountID s0.name := by
  cases svcs with
  | nil => simp [groupPolicies] at h
  | cons s0 rest =>
    unfold groupPolicies at h
    rw [except_bind_error] at h
    rcases h with h | ⟨a, _, h⟩
    · exact ⟨s0, rest, rfl, buildResources_error_shape aid s0 scope e h⟩
    · simp [pure, Except.pure] at h

theorem GenerateMulti_valid_unfold (aid scope lvl : String) (keys : List String)
    (h : lowerStr lvl = "read" ∨ lowerStr lvl = "edit") :
    GenerateMulti aid keys scope lvl =
      (do
        let svcs ← resolveServices keys (lowerStr lvl)
        let zonePolicies ← groupPolicies aid scope (lowerStr lvl) (zoneGroup svcs)
        let accountPolicies ← groupPolicies aid scope (lowerStr lvl) (accountGroup svcs)
        pure { name := joinDash (svcs.map Service.name) ++ "-" ++ scope ++ "-" ++ lowerStr lvl,
               policies := zonePolicies ++ accountPolicies }) := by
  unfold GenerateMulti
  rcases h with h | h <;> rw [h] <;> simp

theorem GenerateMulti_ok_struct (aid scope lvl : String) (keys : List String)
    (tok : APIToken) (h : GenerateMulti aid keys scope lvl = .ok tok) :
    ∃ svcs zonePolicies accountPolicies,
      resolveServices keys (lowerStr lvl) = .ok svcs ∧
      groupPolicies aid scope (lowerStr lvl) (zoneGroup svcs) = .ok zonePolicies ∧
      groupPolicies aid scope (lowerStr lvl) (accountGroup svcs) = .ok accountPolicies ∧
      tok.policies = zonePolicies ++ accountPolicies ∧
      tok.name = joinDash (svcs.map Service.name) ++ "-" ++ scope ++ "-" ++ lowerStr lvl := by
  unfold GenerateMulti at h
  dsimp only at h
  split at h
  · simp at h
  · rw [except_bind_ok] at h
    obtain ⟨svcs, hsvcs, h⟩ := h
    rw [except_bind_ok] at h
    obtain ⟨zps, hz, h⟩ := h
    rw [except_bind_ok] at h
    obtain ⟨aps, ha, h⟩ := h
    simp [pure, Except.pure] at h
    exact ⟨svcs, zps, aps, hsvcs, hz, ha, by rw [← h], by rw [← h]⟩

/-! ## Claim theorems -/

/-- C2: `buildResources` resolves scope "all" (case-insensitively) to the
zone wildcard for zone-scoped services, and to the configured account for
account-scoped services — failing with the missing-account-id error when
the account identifier is empty; any other scope string is used verbatim
and never fails. -/
theorem buildResources_resolution (aid scope : String) (svc : Service) :
    (lowerStr scope = "all" → svc.resourceScope = ResourceScope.zone →
      buildResources aid svc scope = .ok [("com.cloudflare.api.account.zone.*", "*")]) ∧
    (lowerStr scope = "all" → svc.resourceScope = ResourceScope.account → aid ≠ "" →
      buildResources aid svc scope = .ok [("com.cloudflare.api.account." ++ aid, "*")]) ∧
    (lowerStr scope = "all" → svc.resourceScope = ResourceScope.account → aid = "" →
      buildResources aid svc scope = .error (.missingAccountID svc.name)) ∧
    (lowerStr scope ≠ "all" →
      buildResources aid svc scope = .ok
        [(if svc.resourceScope = ResourceScope.zone
          then "com.cloudflare.api.account.zone." ++ scope
          else "com.cloudflare.api.account." ++ scope, "*")]) := by
  refine ⟨?_, ?_, ?_, ?_⟩
  · intro hs hz
    unfold buildResources
    rw [if_pos hs, if_pos hz]
  · intro hs ha hne
    unfold buildResources
    rw [if_pos hs, if_neg (by simp [ha]), if_neg hne]
  · intro hs ha he
    unfold buildResources
    rw [if_pos hs, if_neg (by simp [ha]), if_pos he]
  · intro hns
    by_cases hz : svc.resourceScope = ResourceScope.zone <;>
      simp [buildResources, hns, hz]

/-- C2 witness: concrete instances of all four branches. -/
theorem buildResources_resolution_witness :
    buildResources "" ⟨"s", "d", ResourceScope.zone, []⟩ "ALL" =
      .ok [("com.cloudflare.api.account.zone.*", "*")] ∧
    buildResources "acct" ⟨"s", "d", ResourceScope.account, []⟩ "All" =
      .ok [("com.cloudflare.api.account.acct", "*")] ∧
    buildResources "" ⟨"s", "d", ResourceScope.account, []⟩ "all" =
      .error (.missingAccountID "s") ∧
    buildResources "" ⟨"s", "d", ResourceScope.zone, []⟩ "zid123" =
      .ok [("com.cloudflare.api.account.zone.zid123", "*")] := by
  refine ⟨?_, ?_, ?_, ?_⟩
  · exact (buildResources_resolution "" "ALL" ⟨"s", "d", ResourceScope.zone, []⟩).1
      (by decide) rfl
  · exact (buildResources_resolution "acct" "All" ⟨"s", "d", ResourceScope.account, []⟩).2.1
      (by decide) rfl (by decide)
  · exact (buildResources_resolution "" "all" ⟨"s", "d", ResourceScope.account, []⟩).2.2.1
      (by decide) rfl rfl
  · have h := (buildResources_resolution "" "zid123" ⟨"s", "d", ResourceScope.zone, []⟩).2.2.2
      (by decide)
    rw [h]
    decide

/-- C4: for every level string that is not case-insensitively "read" or
"edit", `GenerateMulti` fails with the invalid-level error regardless of
the requested keys and scope: the level is validated before any catalog
lookup. -/
theorem invalid_level_rejected_first (lvl : String) (h1 : lowerStr lvl ≠ "read")
    (h2 : lowerStr lvl ≠ "edit") (aid scope : String) (keys : List String) :
    GenerateMulti aid keys scope lvl = .error (.invalidLevel (lowerStr lvl)) := by
  unfold GenerateMulti
  dsimp only
  rw [if_pos ⟨h1, h2⟩]

/-- C4 witness: level "Write" is rejected even though every requested key
is unknown. -/
theorem invalid_level_rejected_first_witness :
    lowerStr "Write" ≠ "read" ∧ lowerStr "Write" ≠ "edit" ∧
    GenerateMulti "" ["nosuchservice", "alsounknown"] "all" "Write" =
      .error (.invalidLevel "write") := by
  refine ⟨by decide, by decide, ?_⟩
  rw [invalid_level_rejected_first "Write" (by decide) (by decide) ""
    "all" ["nosuchservice", "alsounknown"]]
  decide

/-- C10: an empty requested-service list with a valid level raises no
local validation error and submits a token-creation request with an
empty policy list and name "-scope-level". -/
theorem empty_request_builds_empty_policies (aid scope lvl : String)
    (h : lowerStr lvl = "read" ∨ lowerStr lvl = "edit") :
    GenerateMulti aid [] scope lvl =
      .ok { name := "" ++ "-" ++ scope ++ "-" ++ lowerStr lvl, policies := [] } := by
  rw [GenerateMulti_valid_unfold aid scope lvl [] h]
  rfl

/-- C10 witness: the empty request at level "edit" and scope "all"
with no account configured succeeds with zero policies. -/
theorem empty_request_builds_empty_policies_witness :
    (lowerStr "edit" = "read" ∨ lowerStr "edit" = "edit") ∧
    GenerateMulti "" [] "all" "edit" = .ok { name := "-all-edit", policies := [] } := by
  refine ⟨Or.inr (by decide), ?_⟩
  rw [empty_request_builds_empty_policies "" "all" "edit" (Or.inr (by decide))]
  decide

/-- C1: every successful `GenerateMulti` call emits at most one
zone-scoped and at most one account-scoped policy — two exactly when the
resolved request mixes the two classes — and each emitted policy's
permissionGroups is the concatenation, over that group's services in
request order, of each service's level-filtered permission identifiers
in catalog order. -/
theorem generateMulti_policy_grouping (aid : String) (keys : List String)
    (scope lvl : String) (tok : APIToken)
    (h : GenerateMulti aid keys scope lvl = .ok tok) :
    ∃ svcs, resolveServices keys (lowerStr lvl) = .ok svcs ∧
      ∃ zres ares,
        tok.policies =
          (if zoneGroup svcs = [] then []
           else [{ effect := "allow", resources := zres,
                   permissionGroups := groupPermIDs (lowerStr lvl) (zoneGroup svcs) }]) ++
          (if accountGroup svcs = [] then []
           else [{ effect := "allow", resources := ares,
                   permissionGroups := groupPermIDs (lowerStr lvl) (accountGroup svcs) }]) ∧
        tok.policies.length =
          (if zoneGroup svcs = [] then 0 else 1) +
          (if accountGroup svcs = [] then 0 else 1) := by
  obtain ⟨svcs, zps, aps, hres, hz, ha, hpol, -⟩ :=
    GenerateMulti_ok_struct aid scope lvl keys tok h
  have hzShape : ∃ zres, zps = (if zoneGroup svcs = [] then []
      else [{ effect := "allow", resources := zres,
              permissionGroups := groupPermIDs (lowerStr lvl) (zoneGroup svcs) }]) := by
    rcases groupPolicies_ok_cases aid scope (lowerStr lvl) (zoneGroup svcs) zps hz with
      ⟨hnil, hzps⟩ | ⟨s0, rest, res, hcons, -, hzps⟩
    · exact ⟨[], by rw [if_pos hnil, hzps]⟩
    · refine ⟨res, ?_⟩
      rw [if_neg (by simp [hcons]), hzps]
  have haShape : ∃ ares, aps = (if accountGroup svcs = [] then []
      else [{ effect := "allow", resources := ares,
              permissionGroups := groupPermIDs (lowerStr lvl) (accountGroup svcs) }]) := by
    rcases groupPolicies_ok_cases aid scope (lowerStr lvl) (accountGroup svcs) aps ha with
      ⟨hnil, haps⟩ | ⟨s0, rest, res, hcons, -, haps⟩
    · exact ⟨[], by rw [if_pos hnil, haps]⟩
    · refine ⟨res, ?_⟩
      rw [if_neg (by simp [hcons]), haps]
  obtain ⟨zres, hzps⟩ := hzShape
  obtain ⟨ares, haps⟩ := haShape
  refine ⟨svcs, hres, zres, ares, ?_, ?_⟩
  · rw [hpol, hzps, haps]
  · rw [hpol, hzps, haps]
    by_cases h1 : zoneGroup svcs = [] <;> by_cases h2 : accountGroup svcs = [] <;>
      simp [h1, h2]

/-- C1 witness: the mixed request dns+workers yields exactly the zone
policy (dns permissions) followed by the account policy (workers
permissions). -/
theorem generateMulti_policy_grouping_witness :
    ∃ svcs, resolveServices ["dns", "workers"] (lowerStr "edit") = .ok svcs ∧
      ∃ zres ares,
        ({ name := "dns-workers-all-edit",
           policies := [
             { effect := "allow",
               resources := [("com.cloudflare.api.account.zone.*", "*")],
               permissionGroups := ["82e64a83756745bbbb1c9c2701bf816b",
                                    "4755a26eedb94da69e1066d98aa820be"] },
             { effect := "allow",
               resources := [("com.cloudflare.api.account.acct", "*")],
               permissionGroups := ["1a71c399035b4950a1bd1466bbe4f420",
                                    "e086da7e2179491d91ee5f35b3ca210a"] }] } : APIToken).policies =
          (if zoneGroup svcs = [] then []
           else [{ effect := "allow", resources := zres,
                   permissionGroups := groupPermIDs (lowerStr "edit") (zoneGroup svcs) }]) ++
          (if accountGroup svcs = [] then []
           else [{ effect := "allow", resources := ares,
                   permissionGroups := groupPermIDs (lowerStr "edit") (accountGroup svcs) }]) ∧
        ({ name := "dns-workers-all-edit",
           policies := [
             { effect := "allow",
               resources := [("com.cloudflare.api.account.zone.*", "*")],
               permissionGroups := ["82e64a83756745bbbb1c9c2701bf816b",
                                    "4755a26eedb94da69e1066d98aa820be"] },
             { effect := "allow",
               resources := [("com.cloudflare.api.account.acct", "*")],
               permissionGroups := ["1a71c399035b4950a1bd1466bbe4f420",
                                    "e086da7e2179491d91ee5f35b3ca210a"] }] } : APIToken).policies.length =
          (if zoneGroup svcs = [] then 0 else 1) +
          (if accountGroup svcs = [] then 0 else 1) := by
  exact generateMulti_policy_grouping "acct" ["dns", "workers"] "all" "edit" _ (by decide)

/-- C9: every policy emitted by `GenerateMulti` or `GodMode` has effect
"allow" and a resources mapping with exactly one entry. -/
theorem emitted_policies_allow_singleton (aid scope lvl : String)
    (keys : List String) (perms : List permissionGroup) (tok tok2 : APIToken) :
    (GenerateMulti aid keys scope lvl = .ok tok →
      ∀ p ∈ tok.policies, p.effect = "allow" ∧ p.resources.length = 1) ∧
    (GodMode aid perms = .ok tok2 →
      ∀ p ∈ tok2.policies, p.effect = "allow" ∧ p.resources.length = 1) := by
  constructor
  · intro h p hp
    obtain ⟨svcs, zps, aps, -, hz, ha, hpol, -⟩ :=
      GenerateMulti_ok_struct aid scope lvl keys tok h
    rw [hpol] at hp
    rcases List.mem_append.1 hp with hmem | hmem
    · rcases groupPolicies_ok_cases aid scope (lowerStr lvl) (zoneGroup svcs) zps hz with
        ⟨-, hzps⟩ | ⟨s0, rest, res, -, hbr, hzps⟩
      · rw [hzps] at hmem
        simp at hmem
      · rw [hzps] at hmem
        simp at hmem
        subst hmem
        exact ⟨rfl, buildResources_ok_len aid s0 scope res hbr⟩
    · rcases groupPolicies_ok_cases aid scope (lowerStr lvl) (accountGroup svcs) aps ha with
        ⟨-, haps⟩ | ⟨s0, rest, res, -, hbr, haps⟩
      · rw [haps] at hmem
        simp at hmem
      · rw [haps] at hmem
        simp at hmem
        subst hmem
        exact ⟨rfl, buildResources_ok_len aid s0 scope res hbr⟩
  · intro h p hp
    unfold GodMode at h
    split at h
    · simp at h
    · simp only [Except.ok.injEq] at h
      subst h
      rcases List.mem_append.1 hp with hmem | hmem <;>
        [skip; skip] <;>
        · split at hmem <;> simp at hmem
          subst hmem
          exact ⟨rfl, rfl⟩

/-- C9 witness: the concrete dns request and a concrete godmode
assembly each emit an "allow" policy with a single-entry resources
mapping. -/
theorem emitted_policies_allow_singleton_witness :
    ({ effect := "allow",
       resources := [("com.cloudflare.api.account.zone.*", "*")],
       permissionGroups := ["82e64a83756745bbbb1c9c2701bf816b",
                            "4755a26eedb94da69e1066d98aa820be"] } : APITokenPolicies).effect =
      "allow" ∧
    ({ effect := "allow",
       resources := [("com.cloudflare.api.account.zone.*", "*")],
       permissionGroups := ["82e64a83756745bbbb1c9c2701bf816b",
                            "4755a26eedb94da69e1066d98aa820be"] } : APITokenPolicies).resources.length =
      1 ∧
    ({ effect := "allow",
       resources := [("com.cloudflare.api.account.acc", "*")],
       permissionGroups := ["id1"] } : APITokenPolicies).effect = "allow" ∧
    ({ effect := "allow",
       resources := [("com.cloudflare.api.account.acc", "*")],
       permissionGroups := ["id1"] } : APITokenPolicies).resources.length = 1 := by
  have h1 := (emitted_policies_allow_singleton "acc" "all" "edit" ["dns"]
    [⟨"id1", "DNS Read", ["com.cloudflare.api.account"]⟩]
    { name := "dns-all-edit",
      policies := [{ effect := "allow",
                     resources := [("com.cloudflare.api.account.zone.*", "*")],
                     permissionGroups := ["82e64a83756745bbbb1c9c2701bf816b",
                                          "4755a26eedb94da69e1066d98aa820be"] }] }
    { name := "godmode",
      policies := [{ effect := "allow",
                     resources := [("com.cloudflare.api.account.acc", "*")],
                     permissionGroups := ["id1"] }] })
  have hGen := h1.1 (by decide)
    { effect := "allow",
      resources := [("com.cloudflare.api.account.zone.*", "*")],
      permissionGroups := ["82e64a83756745bbbb1c9c2701bf816b",
                           "4755a26eedb94da69e1066d98aa820be"] } (by decide)
  have hGod := h1.2 (by decide)
    { effect := "allow",
      resources := [("com.cloudflare.api.account.acc", "*")],
      permissionGroups := ["id1"] } (by decide)
  exact ⟨hGen.1, hGen.2, hGod.1, hGod.2⟩

theorem except_ok_bind {e a b : Type} (x : a) (f : a → Except e b) :
    ((Except.ok x : Except e a) >>= f) = f x := rfl

theorem generateMulti_single_unsupported_iff (aid key scope lvl : String)
    (svc : Service) (hlow : lowerStr lvl = lvl) (hl : lvl = "read" ∨ lvl = "edit")
    (hk : lookupService (lowerStr (trimStr key)) = some svc) :
    (GenerateMulti aid [key] scope lvl =
        .error (.unsupportedLevel svc.name lvl (ServiceLevels svc)) ↔
      filterPermissions svc.permissions lvl = []) := by
  have hv : lowerStr lvl = "read" ∨ lowerStr lvl = "edit" := by rw [hlow]; exact hl
  rw [GenerateMulti_valid_unfold aid scope lvl [key] hv, hlow]
  constructor
  · intro h
    by_contra hne
    have hres : resolveServices [key] lvl = .ok [svc] := by
      simp only [resolveServices, hk]
      rw [if_neg (by simpa using hne)]
      rfl
    rw [hres, except_ok_bind] at h
    rcases (except_bind_error _ _ _).1 h with h1 | ⟨zps, -, h2⟩
    · obtain ⟨s0, rest, -, he⟩ := groupPolicies_error_shape _ _ _ _ _ h1
      simp at he
    · rcases (except_bind_error _ _ _).1 h2 with h3 | ⟨aps, -, h4⟩
      · obtain ⟨s0, rest, -, he⟩ := groupPolicies_error_shape _ _ _ _ _ h3
        simp at he
      · simp [pure, Except.pure] at h4
  · intro hempty
    have hres : resolveServices [key] lvl =
        .error (.unsupportedLevel svc.name lvl (ServiceLevels svc)) := by
      simp only [resolveServices, hk]
      rw [if_pos (by simp [hempty])]
    rw [hres]
    rfl

/-- C3: filtering at level "edit" keeps all permissions, filtering at
level "read" keeps exactly those whose display name case-insensitively
contains "read"; the resolver fails with the unsupported-level error for
a looked-up service exactly when the filtered subset is empty — in
particular, "cache" at level "read" fails since "Cache Purge" matches no
"read". -/
theorem level_filter_semantics :
    (∀ perms, filterPermissions perms "edit" = perms) ∧
    (∀ perms, filterPermissions perms "read" =
      perms.filter (fun p => strContains (lowerStr p.name) "read")) ∧
    (∀ aid key scope lvl svc, (lvl = "read" ∨ lvl = "edit") →
      lookupService (lowerStr (trimStr key)) = some svc →
      (GenerateMulti aid [key] scope lvl =
          .error (.unsupportedLevel svc.name lvl (ServiceLevels svc)) ↔
        filterPermissions svc.permissions lvl = [])) ∧
    (∀ aid scope, GenerateMulti aid ["cache"] scope "read" =
      .error (.unsupportedLevel "cache" "read" ["edit"])) := by
  refine ⟨fun perms => rfl, fun perms => rfl, ?_, fun aid scope => rfl⟩
  intro aid key scope lvl svc hl hk
  exact generateMulti_single_unsupported_iff aid key scope lvl svc
    (by rcases hl with h | h <;> subst h <;> decide) hl hk

/-- C3 witness: the cache service's singleton permission list filters to
empty at "read" (derived through the resolver iff at the concrete cache
request), and "edit" keeps dns's full list. -/
theorem level_filter_semantics_witness :
    filterPermissions [⟨"e17beae8b8cb423a99b1730f21238bed", "Cache Purge"⟩] "read" = [] ∧
    filterPermissions [⟨"82e64a83756745bbbb1c9c2701bf816b", "DNS Read"⟩,
                       ⟨"4755a26eedb94da69e1066d98aa820be", "DNS Write"⟩] "edit" =
      [⟨"82e64a83756745bbbb1c9c2701bf816b", "DNS Read"⟩,
       ⟨"4755a26eedb94da69e1066d98aa820be", "DNS Write"⟩] := by
  constructor
  · exact (level_filter_semantics.2.2.1 "a" "cache" "all" "read"
      { name := "cache", description := "Cache purge", resourceScope := .zone,
        permissions := [⟨"e17beae8b8cb423a99b1730f21238bed", "Cache Purge"⟩] }
      (Or.inl rfl) (by decide)).mp (level_filter_semantics.2.2.2 "a" "all")
  · exact level_filter_semantics.1
      [⟨"82e64a83756745bbbb1c9c2701bf816b", "DNS Read"⟩,
       ⟨"4755a26eedb94da69e1066d98aa820be", "DNS Write"⟩]

theorem resolveServices_unknown_first (lvl : String) (pre : List String)
    (k : String) (post : List String)
    (hpre : ∀ s ∈ pre, ∃ svc, lookupService (lowerStr (trimStr s)) = some svc ∧
      filterPermissions svc.permissions lvl ≠ [])
    (hk : lookupService (lowerStr (trimStr k)) = none) :
    resolveServices (pre ++ k :: post) lvl = .error (.unknownService k) := by
  induction pre with
  | nil =>
    simp only [List.nil_append, resolveServices, hk]
  | cons s rest ih =>
    obtain ⟨svc, hsvc, hfil⟩ := hpre s (by simp)
    have htail := ih (fun x hx => hpre x (by simp [hx]))
    simp only [List.cons_append, resolveServices, hsvc]
    rw [if_neg (by simpa using hfil)]
    simp only [List.append_eq]
    rw [htail]
    rfl

/-- C5: with a valid level, when a requested key — compared after
trimming and lowercasing — is not in the catalog while every earlier key
resolves and supports the level, `GenerateMulti` fails with the
unknown-service error naming exactly that key, whatever follows it. -/
theorem unknown_service_fail_fast (aid scope lvl : String)
    (pre post : List String) (k : String)
    (hv : lowerStr lvl = "read" ∨ lowerStr lvl = "edit")
    (hpre : ∀ s ∈ pre, ∃ svc, lookupService (lowerStr (trimStr s)) = some svc ∧
      filterPermissions svc.permissions (lowerStr lvl) ≠ [])
    (hk : lookupService (lowerStr (trimStr k)) = none) :
    GenerateMulti aid (pre ++ k :: post) scope lvl = .error (.unknownService k) := by
  rw [GenerateMulti_valid_unfold aid scope lvl _ hv,
    resolveServices_unknown_first (lowerStr lvl) pre k post hpre hk]
  rfl

/-- C5 witness: "BOGUS" after a valid "dns" and before a valid
"workers" is reported, with the key's original spelling. -/
theorem unknown_service_fail_fast_witness :
    lookupService (lowerStr (trimStr "BOGUS")) = none ∧
    GenerateMulti "acct" ["dns", "BOGUS", "workers"] "all" "edit" =
      .error (.unknownService "BOGUS") := by
  refine ⟨by decide, ?_⟩
  exact unknown_service_fail_fast "acct" "all" "edit" ["dns"] ["workers"] "BOGUS"
    (Or.inr (by decide))
    (by
      intro s hs
      simp at hs
      subst hs
      exact ⟨{ name := "dns", description := "DNS records management",
               resourceScope := .zone,
               permissions := [⟨"82e64a83756745bbbb1c9c2701bf816b", "DNS Read"⟩,
                               ⟨"4755a26eedb94da69e1066d98aa820be", "DNS Write"⟩] },
             by decide, by decide⟩)
    (by decide)

/-- C8: for a known service key, the delegating `Generate` wrapper is
definitionally `GenerateMulti` on the one-element list at level "edit",
and the legacy standalone `Generate` produces exactly the same
authorization-policy list (same effect, resources, and ordered
permission-group identifiers) as that call. -/
theorem single_service_paths_agree (aid key scope : String) (svc : Service)
    (h1 : lookupService (lowerStr key) = some svc)
    (h2 : trimStr key = key)
    (h3 : svc.permissions ≠ []) :
    Generate aid key scope = GenerateMulti aid [key] scope "edit" ∧
    Except.map APIToken.policies (GenerateLegacy aid key scope) =
      Except.map APIToken.policies (GenerateMulti aid [key] scope "edit") := by
  refine ⟨rfl, ?_⟩
  have hk : lookupService (lowerStr (trimStr key)) = some svc := by
    rw [h2]; exact h1
  have hres : resolveServices [key] "edit" = .ok [svc] := by
    simp only [resolveServices, hk]
    rw [if_neg (by simpa [filterPermissions] using h3)]
    rfl
  have hle : lowerStr "edit" = "edit" := by decide
  rw [GenerateMulti_valid_unfold aid scope "edit" [key] (Or.inr hle), hle, hres,
    except_ok_bind]
  simp only [GenerateLegacy, h1]
  by_cases hsc : svc.resourceScope = ResourceScope.zone
  · have hzg : zoneGroup [svc] = [svc] := by simp [zoneGroup, hsc]
    have hag : accountGroup [svc] = [] := by simp [accountGroup, hsc]
    rw [hzg, hag]
    cases hb : buildResources aid svc scope with
    | error e =>
      simp [groupPolicies, hb, Except.map, Bind.bind, Except.bind]
    | ok res =>
      simp [groupPolicies, hb, Except.map, Bind.bind, Except.bind, pure, Except.pure,
        groupPermIDs, filterPermissions]
  · have hzg : zoneGroup [svc] = [] := by simp [zoneGroup, hsc]
    have hag : accountGroup [svc] = [svc] := by simp [accountGroup, hsc]
    rw [hzg, hag]
    cases hb : buildResources aid svc scope with
    | error e =>
      simp [groupPolicies, hb, Except.map, Bind.bind, Except.bind]
    | ok res =>
      simp [groupPolicies, hb, Except.map, Bind.bind, Except.bind, pure, Except.pure,
        groupPermIDs, filterPermissions]

/-- C8 witness: the dns key, through the wrapper, the legacy path, and
the multi-service path. -/
theorem single_service_paths_agree_witness :
    Generate "a" "dns" "all" = GenerateMulti "a" ["dns"] "all" "edit" ∧
    Except.map APIToken.policies (GenerateLegacy "a" "dns" "all") =
      Except.map APIToken.policies (GenerateMulti "a" ["dns"] "all" "edit") := by
  exact single_service_paths_agree "a" "dns" "all"
    { name := "dns", description := "DNS records management", resourceScope := .zone,
      permissions := [⟨"82e64a83756745bbbb1c9c2701bf816b", "DNS Read"⟩,
                      ⟨"4755a26eedb94da69e1066d98aa820be", "DNS Write"⟩] }
    (by decide) (by decide) (by decide)

theorem godmode_provenance (aid : String) (perms : List permissionGroup)
    (tok : APIToken) (h : GodMode aid perms = .ok tok) :
    ∀ pol ∈ tok.policies, ∀ i ∈ pol.permissionGroups,
      ∃ q ∈ perms, q.id = i ∧ strContains (lowerStr q.name) "api token" = false ∧
        (deriveScope q.scopes = "zone" ∨ deriveScope q.scopes = "account") := by
  intro pol hpol i hi
  unfold GodMode at h
  split at h
  · simp at h
  · simp only [Except.ok.injEq] at h
    subst h
    rcases List.mem_append.1 hpol with hmem | hmem
    · split at hmem
      · simp at hmem
        subst hmem
        simp only [godZonePerms, godKept, List.mem_map, List.mem_filter] at hi
        obtain ⟨q, ⟨⟨hq1, hq2⟩, hq3⟩, hq4⟩ := hi
        exact ⟨q, hq1, hq4, by simpa using hq2, Or.inl (by simpa using hq3)⟩
      · simp at hmem
    · split at hmem
      · simp at hmem
        subst hmem
        simp only [godAccountPerms, godKept, List.mem_map, List.mem_filter] at hi
        obtain ⟨q, ⟨⟨hq1, hq2⟩, hq3⟩, hq4⟩ := hi
        exact ⟨q, hq1, hq4, by simpa using hq2, Or.inr (by simpa using hq3)⟩
      · simp at hmem

theorem deriveScope_of_no_hint (scopes : List String)
    (h : ∀ s ∈ scopes, strContains s "zone" = false ∧ strContains s "account" = false) :
    deriveScope scopes = "" := by
  induction scopes with
  | nil => rfl
  | cons s rest ih =>
    obtain ⟨hz, ha⟩ := h s (by simp)
    simp only [deriveScope, hz, ha]
    simpa using ih (fun x hx => h x (by simp [hx]))

/-- C6: the policies assembled by `GodMode` draw every identifier from a
fetched group whose display name does not case-insensitively contain
"api token"; when the fetched identifiers are pairwise distinct, the
identifier of an api-token-named group therefore appears in no emitted
policy, regardless of its scope hints. -/
theorem godmode_excludes_api_token_groups (aid : String)
    (perms : List permissionGroup) (tok : APIToken)
    (h : GodMode aid perms = .ok tok) :
    (∀ pol ∈ tok.policies, ∀ i ∈ pol.permissionGroups,
      ∃ q ∈ perms, q.id = i ∧ strContains (lowerStr q.name) "api token" = false) ∧
    ((perms.map permissionGroup.id).Nodup →
      ∀ p ∈ perms, strContains (lowerStr p.name) "api token" = true →
        ∀ pol ∈ tok.policies, p.id ∉ pol.permissionGroups) := by
  constructor
  · intro pol hpol i hi
    obtain ⟨q, hq, hqid, hqnot, -⟩ := godmode_provenance aid perms tok h pol hpol i hi
    exact ⟨q, hq, hqid, hqnot⟩
  · intro hnd p hp hapi pol hpol hmem
    obtain ⟨q, hq, hqid, hqnot, -⟩ := godmode_provenance aid perms tok h pol hpol p.id hmem
    have hqp : q = p := List.inj_on_of_nodup_map hnd hq hp hqid
    rw [hqp, hapi] at hqnot
    simp at hqnot

/-- C6 witness: with a fetched list containing a "DNS Read" zone group
(id1), an "API Token Edit" group (id2) and an unclassifiable group
(id3), the emitted policy carries id1 — whose group is not
api-token-named — and id2 is absent. -/
theorem godmode_excludes_api_token_groups_witness :
    (∃ q ∈ [(⟨"id1", "DNS Read", ["com.cloudflare.api.account.zone"]⟩ : permissionGroup),
            ⟨"id2", "API Token Edit", ["zone"]⟩,
            ⟨"id3", "Mystery", ["weird"]⟩],
        q.id = "id1" ∧ strContains (lowerStr q.name) "api token" = false) ∧
    (⟨"id2", "API Token Edit", ["zone"]⟩ : permissionGroup).id ∉
      ({ effect := "allow",
         resources := [("com.cloudflare.api.account.zone.*", "*")],
         permissionGroups := ["id1"] } : APITokenPolicies).permissionGroups := by
  have h := godmode_excludes_api_token_groups "acct"
    [⟨"id1", "DNS Read", ["com.cloudflare.api.account.zone"]⟩,
     ⟨"id2", "API Token Edit", ["zone"]⟩,
     ⟨"id3", "Mystery", ["weird"]⟩]
    { name := "godmode",
      policies := [{ effect := "allow",
                     resources := [("com.cloudflare.api.account.zone.*", "*")],
                     permissionGroups := ["id1"] }] }
    (by decide)
  constructor
  · exact h.1
      { effect := "allow",
        resources := [("com.cloudflare.api.account.zone.*", "*")],
        permissionGroups := ["id1"] } (by decide) "id1" (by decide)
  · exact h.2 (by decide) ⟨"id2", "API Token Edit", ["zone"]⟩ (by decide) (by decide)
      { effect := "allow",
        resources := [("com.cloudflare.api.account.zone.*", "*")],
        permissionGroups := ["id1"] } (by decide)

/-- C7: `deriveScope` scans the hints in order and takes the first
class-indicating one — "zone" wins inside a hint, then "account", else
the scan continues and ends at "" — and every identifier `GodMode` emits
comes from a group classified zone or account; with pairwise-distinct
identifiers, a group none of whose hints contains "zone" or "account" is
dropped: its identifier appears in no emitted policy. -/
theorem godmode_scope_classification :
    (∀ hint rest, strContains hint "zone" = true →
      deriveScope (hint :: rest) = "zone") ∧
    (∀ hint rest, strContains hint "zone" = false →
      strContains hint "account" = true →
      deriveScope (hint :: rest) = "account") ∧
    (∀ hint rest, strContains hint "zone" = false →
      strContains hint "account" = false →
      deriveScope (hint :: rest) = deriveScope rest) ∧
    deriveScope [] = "" ∧
    (∀ aid perms tok, GodMode aid perms = .ok tok →
      (∀ pol ∈ tok.policies, ∀ i ∈ pol.permissionGroups,
        ∃ q ∈ perms, q.id = i ∧
          (deriveScope q.scopes = "zone" ∨ deriveScope q.scopes = "account")) ∧
      ((perms.map permissionGroup.id).Nodup →
        ∀ p ∈ perms,
          (∀ s ∈ p.scopes, strContains s "zone" = false ∧
            strContains s "account" = false) →
          ∀ pol ∈ tok.policies, p.id ∉ pol.permissionGroups)) := by
  refine ⟨?_, ?_, ?_, rfl, ?_⟩
  · intro hint rest hz
    simp [deriveScope, hz]
  · intro hint rest hz ha
    simp [deriveScope, hz, ha]
  · intro hint rest hz ha
    simp [deriveScope, hz, ha]
  · intro aid perms tok h
    constructor
    · intro pol hpol i hi
      obtain ⟨q, hq, hqid, -, hcls⟩ := godmode_provenance aid perms tok h pol hpol i hi
      exact ⟨q, hq, hqid, hcls⟩
    · intro hnd p hp hnone pol hpol hmem
      obtain ⟨q, hq, hqid, -, hcls⟩ :=
        godmode_provenance aid perms tok h pol hpol p.id hmem
      have hqp : q = p := List.inj_on_of_nodup_map hnd hq hp hqid
      rw [hqp, deriveScope_of_no_hint p.scopes hnone] at hcls
      rcases hcls with hcl | hcl <;> exact absurd hcl (by decide)

/-- C7 witness: the first classifying hint decides the class, and the
unclassifiable "Mystery" group's id3 is absent from the emitted
policy. -/
theorem godmode_scope_classification_witness :
    deriveScope ["com.cloudflare.api.account.zone"] = "zone" ∧
    deriveScope ["com.cloudflare.api.account"] = "account" ∧
    (⟨"id3", "Mystery", ["weird"]⟩ : permissionGroup).id ∉
      ({ effect := "allow",
         resources := [("com.cloudflare.api.account.zone.*", "*")],
         permissionGroups := ["id1"] } : APITokenPolicies).permissionGroups := by
  refine ⟨?_, ?_, ?_⟩
  · exact godmode_scope_classification.1 "com.cloudflare.api.account.zone" []
      (by decide)
  · exact godmode_scope_classification.2.1 "com.cloudflare.api.account" []
      (by decide) (by decide)
  · exact (godmode_scope_classification.2.2.2.2 "acct"
      [⟨"id1", "DNS Read", ["com.cloudflare.api.account.zone"]⟩,
       ⟨"id2", "API Token Edit", ["zone"]⟩,
       ⟨"id3", "Mystery", ["weird"]⟩]
      { name := "godmode",
        policies := [{ effect := "allow",
                       resources := [("com.cloudflare.api.account.zone.*", "*")],
                       permissionGroups := ["id1"] }] }
      (by decide)).2 (by decide) ⟨"id3", "Mystery", ["weird"]⟩ (by decide)
      (by
        intro s hs
        simp at hs
        subst hs
        exact ⟨by decide, by decide⟩)
      { effect := "allow",
        resources := [("com.cloudflare.api.account.zone.*", "*")],
        permissionGroups := ["id1"] } (by decide)
